import Mathlib

/-
Verification of the core pipeline of the YouTube Transcript Collector
(src/app.py and src/yt_transcripts.py): caption-markup cleaning, outcome
classification of the external tool's diagnostics, subtitle-file location,
temp-file handling of the single-video fetch, batch aggregation of
concurrent per-video results, and catalog-line parsing and filtering.

Modelling conventions:
  Python str is modelled as Lean String (or List Char for the scanners);
  str.lower is modelled with Char.toLower (all matched patterns are ASCII);
  str.strip is modelled with Char.isWhitespace;
  Python float video durations are modelled as rationals (every duration,
  threshold and parsed literal relevant here is exact in both);
  Python int is modelled as Int.
-/

namespace YTC

/-- Python `needle in`-prefix test on character lists. -/
def isPrefL : List Char → List Char → Bool
  | [], _ => true
  | _ :: _, [] => false
  | a :: as, b :: bs => a = b && isPrefL as bs

/-- Python `needle in hay` substring test on character lists. -/
def hasSubL (needle : List Char) : List Char → Bool
  | [] => isPrefL needle []
  | c :: rest => isPrefL needle (c :: rest) || hasSubL needle rest

/-- Python `needle in hay` on strings. -/
def pyContains (hay needle : String) : Bool :=
  hasSubL needle.data hay.data

/-- Python `s.startswith(pre)`. -/
def pyStartsWith (s pre : String) : Bool :=
  isPrefL pre.data s.data

/-- Python `s.lower()` (ASCII range; all matched patterns are ASCII). -/
def pyLower (s : String) : String :=
  String.mk (s.data.map Char.toLower)

/-- Python `s.strip()` on a character list. -/
def pyStripL (l : List Char) : List Char :=
  ((l.dropWhile Char.isWhitespace).reverse.dropWhile Char.isWhitespace).reverse

/-- Python `s.split(sep)` for a one-character separator. -/
def splitOnChar (c : Char) : List Char → List (List Char)
  | [] => [[]]
  | x :: xs =>
    if x = c then [] :: splitOnChar c xs
    else
      match splitOnChar c xs with
      | [] => [[x]]
      | h :: t => (x :: h) :: t

/-- Python `sep.join(pieces)`. -/
def joinWith (sep : List Char) : List (List Char) → List Char
  | [] => []
  | [x] => x
  | x :: xs => x ++ sep ++ joinWith sep xs

/-- Helper for the regex `<[^>]+>`: scan to the first closing bracket,
returning what follows it. -/
def skipToGt : List Char → Option (List Char)
  | [] => none
  | c :: cs => if c = '>' then some cs else skipToGt cs

/-- After an opening `<`, the regex `<[^>]+>` needs at least one
non-closing character and then a `>`. -/
def afterTag : List Char → Option (List Char)
  | [] => none
  | c :: cs => if c = '>' then none else skipToGt cs

/-- Fuelled scanner for `re.sub(r'<[^>]+>', '', line)`: leftmost,
non-overlapping matches are removed; fuel at least the list length
makes the base case unreachable. -/
def stripTagsF : Nat → List Char → List Char
  | 0, l => l
  | _ + 1, [] => []
  | fuel + 1, c :: cs =>
    if c = '<' then
      match afterTag cs with
      | some rest => stripTagsF fuel rest
      | none => c :: stripTagsF fuel cs
    else c :: stripTagsF fuel cs

/-- `re.sub(r'<[^>]+>', '', line)` from clean_vtt_content. -/
def stripTags (l : List Char) : List Char :=
  stripTagsF l.length l

/-- After an opening `<`, match the remainder of the timestamp pattern
`\d{2}:\d{2}:\d{2}\.\d{3}>`. -/
def tsAfter : List Char → Option (List Char)
  | d1 :: d2 :: c1 :: d3 :: d4 :: c2 :: d5 :: d6 :: p :: d7 :: d8 :: d9 :: g :: rest =>
    if d1.isDigit && d2.isDigit && c1 = ':' && d3.isDigit && d4.isDigit && c2 = ':'
        && d5.isDigit && d6.isDigit && p = '.' && d7.isDigit && d8.isDigit && d9.isDigit
        && g = '>' then
      some rest
    else none
  | _ => none

/-- Fuelled scanner for `re.sub(r'<\d{2}:\d{2}:\d{2}\.\d{3}>', '', line)`. -/
def stripTsF : Nat → List Char → List Char
  | 0, l => l
  | _ + 1, [] => []
  | fuel + 1, c :: cs =>
    if c = '<' then
      match tsAfter cs with
      | some rest => stripTsF fuel rest
      | none => c :: stripTsF fuel cs
    else c :: stripTsF fuel cs

/-- `re.sub(r'<\d{2}:\d{2}:\d{2}\.\d{3}>', '', line)` from clean_vtt_content. -/
def stripTs (l : List Char) : List Char :=
  stripTsF l.length l

/-- The skip conditions of the line loop in clean_vtt_content: blank lines,
the WEBVTT header, time-range lines, and Kind/Language/NOTE metadata lines
are discarded (app.py lines 124-128; yt_transcripts.py lines 154-167 test
the same set of conditions). -/
def skipLine (l : List Char) : Bool :=
  (pyStripL l).isEmpty || isPrefL "WEBVTT".data l || hasSubL "-->".data l
    || isPrefL "Kind:".data l || isPrefL "Language:".data l || isPrefL "NOTE".data l

/-- The accumulation loop of clean_vtt_content: surviving lines are
tag-stripped, timestamp-stripped, trimmed, and kept when non-empty and not
seen before (first-seen-order deduplication). -/
def cleanLoop : List (List Char) → List (List Char) → List (List Char)
  | [], _ => []
  | l :: ls, seen =>
    if skipLine l then cleanLoop ls seen
    else
      let c := pyStripL (stripTs (stripTags l))
      if !c.isEmpty && !(seen.contains c) then c :: cleanLoop ls (c :: seen)
      else cleanLoop ls seen

/-- clean_vtt_content (app.py lines 118-137; yt_transcripts.py lines
148-179 are semantically identical): split into lines, drop header,
metadata, blank and time-range lines, strip inline tags and timestamp
tags, trim, deduplicate by exact equality in first-seen order, and join
the survivors with single spaces. -/
def clean_vtt_content (s : String) : String :=
  String.mk (joinWith [' '] (cleanLoop (splitOnChar '\n' s.data) []))

/-- The closed outcome taxonomy of a fetch attempt. -/
inductive Outcome where
  | blocked
  | rateLimited
  | authFailure
  | toolOutdated
  | noCaptions
  | success
deriving DecidableEq

/-- Anti-bot / CAPTCHA diagnostic pattern
(`'Sign in to confirm' in stderr or 'captcha' in stderr.lower()`,
app.py line 218). -/
def blockedPat (e : String) : Bool :=
  pyContains e "Sign in to confirm" || pyContains (pyLower e) "captcha"

/-- Rate-limit diagnostic pattern
(`'rate limit' in stderr.lower() or '429' in stderr`, app.py line 226). -/
def ratePat (e : String) : Bool :=
  pyContains (pyLower e) "rate limit" || pyContains e "429"

/-- Cookie/credential diagnostic pattern
(`'cookies' in stderr.lower() and 'error' in stderr.lower()`,
app.py line 234). -/
def authPat (e : String) : Bool :=
  pyContains (pyLower e) "cookies" && pyContains (pyLower e) "error"

/-- Outdated-tool / JS-challenge diagnostic pattern (app.py lines 243-248). -/
def toolPat (e : String) : Bool :=
  pyContains e "found 0 sig function possibilities"
    || pyContains e "Signature solving failed"
    || pyContains e "n challenge solving failed"
    || pyContains e "Only images are available"

/-- The outcome classification of get_video_transcript (app.py lines
218-293): the four diagnostic patterns are tested in order against stderr
(the exit code is not consulted by any of these tests; it is kept as a
parameter to mirror the classifier interface), then the fetch succeeds
exactly when a caption file was located and cleaned to non-empty text,
and otherwise falls into the no-captions bucket. -/
def classify (_code : Int) (stderr : String) (located cleanedNonEmpty : Bool) : Outcome :=
  if blockedPat stderr then .blocked
  else if ratePat stderr then .rateLimited
  else if authPat stderr then .authFailure
  else if toolPat stderr then .toolOutdated
  else if located && cleanedNonEmpty then .success
  else .noCaptions

/-- The per-video temp path prefix `f'/tmp/yt_transcript_{video_id}'`. -/
def tempFileOf (id : String) : String :=
  "/tmp/yt_transcript_" ++ id

/-- Candidate caption paths probed by app.py's file-search loop (lines
257-259): `for lang in ['ru', 'en']: for ext in [f'.{lang}.vtt', '.vtt']`,
i.e. the untagged fallback is probed right after each language tag. -/
def appLocateCands (base : String) : List String :=
  (["ru", "en"].map (fun l => [base ++ "." ++ l ++ ".vtt", base ++ ".vtt"])).flatten

/-- The first candidate that exists on the (read-only probed) filesystem,
modelled as the list of existing paths. -/
def firstExisting (cands : List String) (fs : List String) : Option String :=
  cands.find? (fun c => fs.contains c)

/-- The probe order of app.py's subtitle search (lines 257-260). -/
def appLocate (base : String) (fs : List String) : Option String :=
  firstExisting (appLocateCands base) fs

/-- Candidate caption paths probed by yt_transcripts.py (lines 217-220):
the detected language tag (when non-empty), then `.en.vtt`, `.ru.vtt`,
and the untagged `.vtt` last. -/
def ytLocateCands (base lang : String) : List String :=
  (if lang ≠ "" then [base ++ "." ++ lang ++ ".vtt"] else [])
    ++ [base ++ ".en.vtt", base ++ ".ru.vtt", base ++ ".vtt"]

/-- The probe order of yt_transcripts.py's subtitle search (lines 222-224). -/
def ytLocate (base lang : String) (fs : List String) : Option String :=
  firstExisting (ytLocateCands base lang) fs

/-- app.py's file-search loop (lines 257-274) over a filesystem modelled
as an association list of path-content pairs: each existing candidate is
read and removed, its content cleaned; the loop returns at the first
non-empty cleaned transcript, else falls through with the files it
consumed deleted. -/
def appScan : List String → List (String × String) → Option String × List (String × String)
  | [], fs => (none, fs)
  | c :: cs, fs =>
    match fs.lookup c with
    | some content =>
      let fs2 := fs.filter (fun f => f.1 != c)
      let t := clean_vtt_content content
      if t = "" then appScan cs fs2 else (some t, fs2)
    | none => appScan cs fs

/-- The glob cleanup `Path('/tmp').glob(f'yt_transcript_{video_id}*')`
with unlink (app.py lines 277-281): every path carrying the per-video
temp prefix is deleted. -/
def cleanupGlob (id : String) (fs : List (String × String)) : List (String × String) :=
  fs.filter (fun f => !(pyStartsWith f.1 (tempFileOf id)))

/-- get_video_transcript's post-download phase (app.py lines 217-293),
starting after the yt-dlp invocations: stderr and the temp files the tool
produced are the inputs. The four classified-failure branches return with
the filesystem untouched; the file-search loop removes the files it reads
and returns a success on non-empty cleaned text; only the final
no-captions fall-through performs the glob cleanup. Returns the outcome,
the transcript, and the remaining filesystem. -/
def appFetchPost (id : String) (stderr : String) (fs : List (String × String)) :
    Outcome × String × List (String × String) :=
  if blockedPat stderr then (.blocked, "", fs)
  else if ratePat stderr then (.rateLimited, "", fs)
  else if authPat stderr then (.authFailure, "", fs)
  else if toolPat stderr then (.toolOutdated, "", fs)
  else
    match appScan (appLocateCands (tempFileOf id)) fs with
    | (some t, fs2) => (.success, t, fs2)
    | (none, fs2) => (.noCaptions, "", cleanupGlob id fs2)

/-- A video descriptor as built by get_channel_videos: id, title, duration
in seconds (Python float, modelled as a rational), view count, and the
canonical watch URL. -/
structure Video where
  id : String
  title : String
  duration : ℚ
  views : Int
  url : String
deriving DecidableEq

/-- Optional leading sign of a Python numeric literal. -/
def readSign : List Char → Int × List Char
  | '+' :: rest => (1, rest)
  | '-' :: rest => (-1, rest)
  | l => (1, l)

/-- Value of a digit string. -/
def digitsVal (l : List Char) : Nat :=
  l.foldl (fun a c => a * 10 + (c.toNat - '0'.toNat)) 0

/-- Python `int(s)`: strip, optional sign, one or more digits
(underscore grouping is not modelled; no catalog field uses it). -/
def pyParseInt (s : String) : Option Int :=
  let p := readSign (pyStripL s.data)
  if !p.2.isEmpty && p.2.all Char.isDigit then some (p.1 * (digitsVal p.2 : Int))
  else none

/-- Python `float(s)` restricted to the plain decimal forms
`[sign] digits [. digits]` and `[sign] . digits` (exponents, inf/nan and
underscore grouping are not modelled; no catalog field uses them). The
exact value intpart.fracpart is built as one integer over a power of
ten. -/
def pyParseFloat (s : String) : Option ℚ :=
  let p := readSign (pyStripL s.data)
  let ip := p.2.takeWhile Char.isDigit
  match p.2.dropWhile Char.isDigit with
  | [] => if ip.isEmpty then none else some ((p.1 * (digitsVal ip : Int) : Int) : ℚ)
  | c :: rest2 =>
    if c = '.' && rest2.all Char.isDigit && (!ip.isEmpty || !rest2.isEmpty) then
      some (mkRat (p.1 * ((digitsVal ip * 10 ^ rest2.length + digitsVal rest2 : Nat) : Int))
        (10 ^ rest2.length))
    else none

/-- One iteration of the catalog parsing loop (identical in
yt_transcripts.py lines 100-116 and app.py lines 96-110): skip lines that
are empty or have no pipe, split on the pipe, require at least four
fields, map the sentinel NA to zero, and silently skip the line when the
duration or view field fails numeric parsing. -/
def parseVideoLine (line : String) : Option Video :=
  let l := line.data
  if l.isEmpty || !(hasSubL [ '|' ] l) then none
  else
    let parts := splitOnChar '|' l
    if 4 ≤ parts.length then
      let p0 := String.mk (parts.getD 0 [])
      let p1 := String.mk (parts.getD 1 [])
      let p2 := String.mk (parts.getD 2 [])
      let p3 := String.mk (parts.getD 3 [])
      let dur : Option ℚ := if p2 = "NA" then some 0 else pyParseFloat p2
      let vws : Option Int := if p3 = "NA" then some 0 else pyParseInt p3
      match dur, vws with
      | some d, some w =>
        some ⟨p0, p1, d, w, "https://www.youtube.com/watch?v=" ++ p0⟩
      | _, _ => none
    else none

/-- The record-building part of get_channel_videos: the tool's stdout is
stripped, split into lines, and each line parsed, malformed lines being
skipped (app.py additionally sorts the result by views afterwards, which
is irrelevant to the membership properties stated below). -/
def get_channel_videos_parse (stdout : String) : List Video :=
  (splitOnChar '\n' (pyStripL stdout.data)).filterMap
    (fun l => parseVideoLine (String.mk l))

/-- Truthiness of a Python Optional[int]: false for None and for 0. -/
def truthyInt : Option Int → Bool
  | none => false
  | some n => n != 0

/-- Insert into a descending-sorted list, after any earlier element with
an equal key: together with sortDesc this is the unique stable descending
sort, which is what Python's `list.sort(key=..., reverse=True)` computes.
The comparator ge v w reads as: v's key is at least w's key. -/
def insertDesc (ge : Video → Video → Bool) (v : Video) : List Video → List Video
  | [] => [v]
  | w :: ws => if ge v w then v :: w :: ws else w :: insertDesc ge v ws

/-- Stable descending sort by a key comparator, modelling
`list.sort(key=..., reverse=True)`. -/
def sortDesc (ge : Video → Video → Bool) : List Video → List Video
  | [] => []
  | v :: vs => insertDesc ge v (sortDesc ge vs)

/-- filter_videos (yt_transcripts.py lines 120-145): each threshold is
applied only when truthy (so None and 0 disable it); the max/min duration
parameters are minutes and are multiplied by 60 (an int multiplication in
the source); the comparisons are inclusive; finally a stable sort by
views or duration, descending. -/
def filter_videos (videos : List Video) (maxDurationMin minDurationMin minViews : Option Int)
    (sortBy : String) : List Video :=
  let f1 := if truthyInt maxDurationMin then
      videos.filter (fun v => decide (v.duration ≤ ((maxDurationMin.getD 0 * 60 : Int) : ℚ)))
    else videos
  let f2 := if truthyInt minDurationMin then
      f1.filter (fun v => decide (((minDurationMin.getD 0 * 60 : Int) : ℚ) ≤ v.duration))
    else f1
  let f3 := if truthyInt minViews then
      f2.filter (fun v => decide (minViews.getD 0 ≤ v.views))
    else f2
  if sortBy = "views" then sortDesc (fun v w => decide (w.views ≤ v.views)) f3
  else if sortBy = "duration" then sortDesc (fun v w => decide (w.duration ≤ v.duration)) f3
  else f3

/-- What one per-video worker of api_get_transcripts delivers back:
either the fetch returned (a transcript and an error message, the
transcript empty on failure), or future.result() raised. -/
inductive FetchOutcome where
  | ret (transcript err : String)
  | exc (msg : String)
deriving DecidableEq

/-- A success entry of the batch report (app.py lines 413-418): title,
url and views are copied from the submitted descriptor. -/
structure SuccessRec where
  title : String
  url : String
  views : Int
  transcript : String
deriving DecidableEq

/-- A failure entry `f"{video['title'][:40]}: {error}"`
(app.py lines 420 and 423). -/
def failLine (title err : String) : String :=
  title.take 40 ++ ": " ++ err

/-- The collection loop of api_get_transcripts (app.py lines 400-423)
over the completed futures in completion order: each completed video
appends exactly one entry, a success record when the transcript is
non-empty, a failure line otherwise, and a failure line as well when
future.result() raised. -/
def collectResults : List (Video × FetchOutcome) → List SuccessRec × List String
  | [] => ([], [])
  | (v, FetchOutcome.ret t e) :: rest =>
    if t = "" then
      ((collectResults rest).1, failLine v.title e :: (collectResults rest).2)
    else
      (⟨v.title, v.url, v.views, t⟩ :: (collectResults rest).1, (collectResults rest).2)
  | (v, FetchOutcome.exc m) :: rest =>
    ((collectResults rest).1, failLine v.title m :: (collectResults rest).2)

/-- Appending distributes over the character data of strings. -/
theorem data_append (a b : String) : (a ++ b).data = a.data ++ b.data := rfl

/-- Strings with a common prefix and suffixes of different lengths differ. -/
theorem append_ne_of_len (a s1 s2 : String) (h : s1.data.length ≠ s2.data.length) :
    a ++ s1 ≠ a ++ s2 := by
  intro he
  apply h
  have hd : a.data.length + s1.data.length = a.data.length + s2.data.length := by
    have hc := congrArg (fun s : String => s.data.length) he
    simpa [data_append] using hc
  omega

/-- A non-empty string has non-empty character data. -/
theorem str_ne_empty_data (s : String) (hs : s ≠ "") : s.data ≠ [] := by
  intro h0
  apply hs
  cases s with
  | mk d =>
    simp only [String.data] at h0
    rw [h0]

/-- A language-tagged candidate path never coincides with the untagged
fallback path: the paths differ in length by one plus the language tag. -/
theorem tag_ne_untagged (base lang : String) :
    base ++ "." ++ lang ++ ".vtt" ≠ base ++ ".vtt" := by
  intro he
  have e1 : ("." : String).data.length = 1 := rfl
  have e2 : (".vtt" : String).data.length = 4 := rfl
  have hd := congrArg (fun s : String => s.data.length) he
  simp only [data_append, List.length_append, e1, e2] at hd
  omega

/-- Splitting on a character that does not occur returns the whole list. -/
theorem splitOnChar_of_not_mem (c : Char) (l : List Char) (h : c ∉ l) :
    splitOnChar c l = [l] := by
  induction l with
  | nil => rfl
  | cons x xs ih =>
    have hx : ¬ x = c := fun hxc => h (by rw [hxc]; exact List.mem_cons_self _ _)
    have hxs : c ∉ xs := fun hm => h (List.mem_cons_of_mem _ hm)
    simp [splitOnChar, hx, ih hxs]

/-- splitOnChar never returns the empty list of pieces. -/
theorem splitOnChar_ne_nil (c : Char) (l : List Char) : splitOnChar c l ≠ [] := by
  induction l with
  | nil => simp [splitOnChar]
  | cons x xs ih =>
    simp only [splitOnChar]
    by_cases hx : x = c
    · simp [hx]
    · simp only [hx, if_false]
      cases hs : splitOnChar c xs
      · simp
      · simp

/-- No piece of splitOnChar contains the separator. -/
theorem mem_splitOnChar (c : Char) (l : List Char) (p : List Char)
    (hp : p ∈ splitOnChar c l) : c ∉ p := by
  induction l generalizing p with
  | nil =>
    simp [splitOnChar] at hp
    rw [hp]
    simp
  | cons x xs ih =>
    simp only [splitOnChar] at hp
    by_cases hx : x = c
    · rw [if_pos hx] at hp
      rcases List.mem_cons.mp hp with rfl | h
      · simp
      · exact ih p h
    · rw [if_neg hx] at hp
      cases hs : splitOnChar c xs with
      | nil => exact absurd hs (splitOnChar_ne_nil c xs)
      | cons h0 t0 =>
        rw [hs] at hp
        rcases List.mem_cons.mp hp with rfl | h
        · have hh0 : h0 ∈ splitOnChar c xs := by rw [hs]; exact List.mem_cons_self _ _
          have hch0 := ih h0 hh0
          simp only [List.mem_cons]
          rintro (hcx | hcp)
          · exact hx hcx.symm
          · exact hch0 hcp
        · exact ih p (by rw [hs]; exact List.mem_cons_of_mem _ h)

/-- A single-character needle is a substring exactly when it occurs. -/
theorem hasSubL_single_false (c : Char) (l : List Char) (h : c ∉ l) :
    hasSubL [c] l = false := by
  induction l with
  | nil => rfl
  | cons x xs ih =>
    have hx : ¬ (c = x) := fun hcx => h (by rw [hcx]; exact List.mem_cons_self _ _)
    have hxs : c ∉ xs := fun hm => h (List.mem_cons_of_mem _ hm)
    simp [hasSubL, isPrefL, hx, ih hxs]

/-- A parsed video descriptor's title is one split piece, so it never
contains the pipe separator. -/
theorem parseVideoLine_title (s : String) (v : Video) (h : parseVideoLine s = some v) :
    hasSubL [ '|' ] v.title.data = false := by
  simp only [parseVideoLine] at h
  split at h
  · exact absurd h (by simp)
  · split at h
    · split at h
      · injection h with hv
        rw [← hv]
        have hlen4 : 4 ≤ (splitOnChar '|' s.data).length := by assumption
        have hm : (splitOnChar '|' s.data).getD 1 [] ∈ splitOnChar '|' s.data := by
          rcases hps : splitOnChar '|' s.data with _ | ⟨a, _ | ⟨b, rest⟩⟩
          · exact absurd hps (splitOnChar_ne_nil _ _)
          · rw [hps] at hlen4
            simp at hlen4
          · simp
        exact hasSubL_single_false _ _ (mem_splitOnChar '|' s.data _ hm)
      · exact absurd h (by simp)
    · exact absurd h (by simp)

/-- Each completed video contributes exactly one entry to the report. -/
theorem collectResults_length (l : List (Video × FetchOutcome)) :
    (collectResults l).1.length + (collectResults l).2.length = l.length := by
  induction l with
  | nil => rfl
  | cons p rest ih =>
    obtain ⟨v, o⟩ := p
    cases o with
    | ret t e =>
      by_cases ht : t = "" <;> simp [collectResults, ht] <;> omega
    | exc m =>
      simp [collectResults]
      omega

/-- A completed fetch with a non-empty transcript contributes its success
record to the report. -/
theorem collect_mem_success (completed : List (Video × FetchOutcome)) (v : Video)
    (t e : String) (hmem : (v, FetchOutcome.ret t e) ∈ completed) (ht : t ≠ "") :
    (⟨v.title, v.url, v.views, t⟩ : SuccessRec) ∈ (collectResults completed).1 := by
  induction completed with
  | nil => cases hmem
  | cons p rest ih =>
    rcases List.mem_cons.mp hmem with heq | hrest
    · obtain ⟨w, o⟩ := p
      rw [← heq]
      simp [collectResults, ht]
    · obtain ⟨w, o⟩ := p
      have hm := ih hrest
      cases o with
      | ret t2 e2 =>
        by_cases h2 : t2 = "" <;> simp [collectResults, h2, hm]
      | exc m =>
        simpa [collectResults] using hm

/-- A completed fetch that raised contributes its failure line to the
report. -/
theorem collect_mem_failure (completed : List (Video × FetchOutcome)) (X : Video)
    (m : String) (hmem : (X, FetchOutcome.exc m) ∈ completed) :
    failLine X.title m ∈ (collectResults completed).2 := by
  induction completed with
  | nil => cases hmem
  | cons p rest ih =>
    rcases List.mem_cons.mp hmem with heq | hrest
    · obtain ⟨w, o⟩ := p
      rw [← heq]
      simp [collectResults]
    · obtain ⟨w, o⟩ := p
      have hm := ih hrest
      cases o with
      | ret t2 e2 =>
        by_cases h2 : t2 = "" <;> simp [collectResults, h2, hm]
      | exc m2 =>
        simp [collectResults, hm]

/-- C1 counterexample: with preference list [ru, en] and only
{base}.en.vtt and {base}.vtt existing, app.py's subtitle search returns
the untagged {base}.vtt — not the .en.vtt path the claim requires —
because its probe order interleaves the untagged fallback after each
language tag; the full post-download fetch accordingly returns the
untagged file's transcript and leaves the .en.vtt file behind. -/
theorem C1_counterexample :
    appLocate "/tmp/yt_transcript_X"
        ["/tmp/yt_transcript_X.en.vtt", "/tmp/yt_transcript_X.vtt"]
      = some "/tmp/yt_transcript_X.vtt"
    ∧ some "/tmp/yt_transcript_X.vtt" ≠ some "/tmp/yt_transcript_X.en.vtt"
    ∧ appFetchPost "X" ""
        [("/tmp/yt_transcript_X.en.vtt", "text from en"),
         ("/tmp/yt_transcript_X.vtt", "text from untagged")]
      = (Outcome.success, "text from untagged",
         [("/tmp/yt_transcript_X.en.vtt", "text from en")]) :=
  ⟨by decide, by decide, by decide⟩

/-- C1 amended: the yt_transcripts.py locator does probe all
language-tagged candidates before the untagged fallback and returns the
first existing one: in the claim's scenario (detected language ru, only
{base}.en.vtt and {base}.vtt existing) it returns the .en.vtt path, and
in general it never returns the untagged path while the .en.vtt candidate
exists; app.py's locator does not satisfy the claim. -/
theorem C1_amended_locator :
    ytLocate "/tmp/yt_transcript_X" "ru"
        ["/tmp/yt_transcript_X.en.vtt", "/tmp/yt_transcript_X.vtt"]
      = some "/tmp/yt_transcript_X.en.vtt"
    ∧ ∀ (base lang : String) (fs : List String),
        fs.contains (base ++ ".en.vtt") = true →
        ytLocate base lang fs ≠ some (base ++ ".vtt") := by
  constructor
  · decide
  · intro base lang fs hfs heq
    unfold ytLocate firstExisting ytLocateCands at heq
    by_cases hl : lang = ""
    · rw [if_neg (by simp [hl])] at heq
      simp only [List.nil_append] at heq
      rw [List.find?_cons_of_pos _ hfs] at heq
      exact append_ne_of_len base ".en.vtt" ".vtt" (by decide) (Option.some.inj heq)
    · rw [if_pos (by simp [hl])] at heq
      simp only [List.cons_append, List.nil_append] at heq
      by_cases htag : fs.contains (base ++ "." ++ lang ++ ".vtt") = true
      · rw [List.find?_cons_of_pos _ htag] at heq
        exact tag_ne_untagged base lang (Option.some.inj heq)
      · rw [List.find?_cons_of_neg _ (by simpa using htag)] at heq
        rw [List.find?_cons_of_pos _ hfs] at heq
        exact append_ne_of_len base ".en.vtt" ".vtt" (by decide) (Option.some.inj heq)

/-- C1 witness: the amended locator statement at a concrete input. -/
theorem C1_witness :
    ytLocate "b" "" ["b.en.vtt", "b.vtt"] ≠ some ("b" ++ ".vtt") :=
  (C1_amended_locator).2 "b" "" ["b.en.vtt", "b.vtt"] (by decide)

/-- C2: the collection loop of api_get_transcripts appends success
records in the completion order of the concurrent fetches: for input
[A (100 views), B (50 views)] submitted in popularity order, a completion
order in which B finishes first yields the successes list [B, A], not the
input order [A, B] the claim states. -/
theorem C2_completion_order :
    (List.map Prod.fst
        [((⟨"b", "B", 0, 50, "ub"⟩ : Video), FetchOutcome.ret "tb" ""),
         ((⟨"a", "A", 0, 100, "ua"⟩ : Video), FetchOutcome.ret "ta" "")]).Perm
      [(⟨"a", "A", 0, 100, "ua"⟩ : Video), (⟨"b", "B", 0, 50, "ub"⟩ : Video)]
    ∧ (collectResults
        [((⟨"b", "B", 0, 50, "ub"⟩ : Video), FetchOutcome.ret "tb" ""),
         ((⟨"a", "A", 0, 100, "ua"⟩ : Video), FetchOutcome.ret "ta" "")]).1
      = [(⟨"B", "ub", 50, "tb"⟩ : SuccessRec), (⟨"A", "ua", 100, "ta"⟩ : SuccessRec)]
    ∧ [(⟨"B", "ub", 50, "tb"⟩ : SuccessRec), (⟨"A", "ua", 100, "ta"⟩ : SuccessRec)]
      ≠ [(⟨"A", "ua", 100, "ta"⟩ : SuccessRec), (⟨"B", "ub", 50, "tb"⟩ : SuccessRec)] :=
  ⟨List.Perm.swap _ _ _, by decide, by decide⟩

/-- C3 counterexample: on a classified-failure exit (here a rate-limit
diagnostic) the fetch returns with the filesystem untouched, so a caption
file under the video's temp prefix survives the return. -/
theorem C3_counterexample :
    appFetchPost "X" "HTTP Error 429"
        [("/tmp/yt_transcript_X.en.vtt", "some captions")]
      = (Outcome.rateLimited, "",
         [("/tmp/yt_transcript_X.en.vtt", "some captions")])
    ∧ pyStartsWith "/tmp/yt_transcript_X.en.vtt" (tempFileOf "X") = true :=
  ⟨by decide, by decide⟩

/-- C3 amended: the all-files cleanup is guaranteed only on the
no-captions fall-through exit of the fetch: whenever the post-download
phase returns the no-captions outcome, no file with the video's temp
prefix remains; the classified-failure exits delete nothing and the
success exit deletes only the caption files it read. -/
theorem C3_amended_cleanup (id stderr : String) (fs : List (String × String))
    (t : String) (fs2 : List (String × String))
    (h : appFetchPost id stderr fs = (Outcome.noCaptions, t, fs2)) :
    fs2.all (fun f => !(pyStartsWith f.1 (tempFileOf id))) = true := by
  unfold appFetchPost at h
  cases hb : blockedPat stderr
  · cases hr : ratePat stderr
    · cases ha : authPat stderr
      · cases hto : toolPat stderr
        · simp only [hb, hr, ha, hto, Bool.false_eq_true, if_false] at h
          cases hscan : appScan (appLocateCands (tempFileOf id)) fs with
          | mk o fs3 =>
            rw [hscan] at h
            cases o with
            | some tt => simp at h
            | none =>
              simp only [Prod.mk.injEq] at h
              obtain ⟨-, -, hfs⟩ := h
              rw [← hfs]
              simp only [cleanupGlob, List.all_eq_true]
              intro f hf
              exact (List.mem_filter.mp hf).2
        · simp [hb, hr, ha, hto] at h
      · simp [hb, hr, ha] at h
    · simp [hb, hr] at h
  · simp [hb] at h

/-- C3 witness: the amended cleanup statement at a concrete input; a
non-temp file survives, witnessing a non-vacuous conclusion. -/
theorem C3_witness :
    ([("/tmp/other.txt", "z")] : List (String × String)).all
        (fun f => !(pyStartsWith f.1 (tempFileOf "X"))) = true :=
  C3_amended_cleanup "X" "" [("/tmp/other.txt", "z")] "" [("/tmp/other.txt", "z")]
    (by decide)

/-- C4: the outcome classification tests the diagnostic patterns in the
precedence order Blocked, RateLimited, AuthFailure, ToolOutdated before
the Success/NoCaptions decision; a rate-limit diagnostic with any
(in particular nonzero) exit code that does not match the bot-block
pattern classifies as RateLimited and never as NoCaptions, and a
diagnostic matching both the bot-block and rate-limit patterns classifies
as Blocked. -/
theorem C4_classifier_precedence (code : Int) (e : String) (located cleaned : Bool) :
    (blockedPat e = true → classify code e located cleaned = Outcome.blocked)
    ∧ (blockedPat e = false → ratePat e = true →
        classify code e located cleaned = Outcome.rateLimited)
    ∧ (blockedPat e = false → ratePat e = false → authPat e = true →
        classify code e located cleaned = Outcome.authFailure)
    ∧ (blockedPat e = false → ratePat e = false → authPat e = false → toolPat e = true →
        classify code e located cleaned = Outcome.toolOutdated)
    ∧ (blockedPat e = false → ratePat e = false → authPat e = false → toolPat e = false →
        classify code e located cleaned
          = (if located && cleaned then Outcome.success else Outcome.noCaptions))
    ∧ (ratePat e = true → blockedPat e = false → code ≠ 0 →
        classify code e located cleaned = Outcome.rateLimited
          ∧ classify code e located cleaned ≠ Outcome.noCaptions)
    ∧ (blockedPat e = true → ratePat e = true →
        classify code e located cleaned = Outcome.blocked) := by
  refine ⟨fun hb => ?_, fun hb hr => ?_, fun hb hr ha => ?_, fun hb hr ha hto => ?_,
    fun hb hr ha hto => ?_, fun hr hb _ => ?_, fun hb _ => ?_⟩ <;>
    simp [classify, hb, *]

/-- C4 witness: a concrete rate-limit diagnostic with nonzero exit code
classifies as RateLimited. -/
theorem C4_witness :
    classify 1 "HTTP Error 429: Too Many Requests" false false = Outcome.rateLimited :=
  ((C4_classifier_precedence 1 "HTTP Error 429: Too Many Requests" false false).2.2.2.2.2.1
    (by decide) (by decide) (by decide)).1

/-- C5: every submitted descriptor yields exactly one report entry: for
any completion order of the submitted videos, the number of success
records plus the number of failure lines equals the number of submitted
videos. -/
theorem C5_cardinality (videos : List Video) (completed : List (Video × FetchOutcome))
    (hperm : (completed.map Prod.fst).Perm videos) :
    (collectResults completed).1.length + (collectResults completed).2.length
      = videos.length := by
  rw [collectResults_length, ← hperm.length_eq, List.length_map]

/-- C5 witness: the cardinality statement at a concrete two-video batch
with one success and one raised exception. -/
theorem C5_witness :
    (collectResults
        [((⟨"b", "B", 0, 50, "ub"⟩ : Video), FetchOutcome.ret "tb" ""),
         ((⟨"a", "A", 0, 100, "ua"⟩ : Video), FetchOutcome.exc "boom")]).1.length
      + (collectResults
        [((⟨"b", "B", 0, 50, "ub"⟩ : Video), FetchOutcome.ret "tb" ""),
         ((⟨"a", "A", 0, 100, "ua"⟩ : Video), FetchOutcome.exc "boom")]).2.length
      = 2 :=
  C5_cardinality
    [(⟨"a", "A", 0, 100, "ua"⟩ : Video), (⟨"b", "B", 0, 50, "ub"⟩ : Video)]
    [((⟨"b", "B", 0, 50, "ub"⟩ : Video), FetchOutcome.ret "tb" ""),
     ((⟨"a", "A", 0, 100, "ua"⟩ : Video), FetchOutcome.exc "boom")]
    (List.Perm.swap _ _ _)

/-- C6: an unexpected exception from one video's fetch is converted into
a failure line for that video, while every other video whose fetch
completed with a non-empty transcript still contributes its success
record to the report, whatever the completion order. -/
theorem C6_fault_isolation (completed : List (Video × FetchOutcome)) (v : Video)
    (t e : String) (X : Video) (m : String) :
    ((v, FetchOutcome.ret t e) ∈ completed → t ≠ "" →
      (⟨v.title, v.url, v.views, t⟩ : SuccessRec) ∈ (collectResults completed).1)
    ∧ ((X, FetchOutcome.exc m) ∈ completed →
      failLine X.title m ∈ (collectResults completed).2) :=
  ⟨fun h ht => collect_mem_success completed v t e h ht,
   fun h => collect_mem_failure completed X m h⟩

/-- C6 witness: in a batch where one video succeeds and another raises,
the success record and the failure line are both present. -/
theorem C6_witness :
    (⟨"B", "ub", 50, "tb"⟩ : SuccessRec)
      ∈ (collectResults
          [((⟨"b", "B", 0, 50, "ub"⟩ : Video), FetchOutcome.ret "tb" ""),
           ((⟨"x", "X", 0, 7, "ux"⟩ : Video), FetchOutcome.exc "boom")]).1
    ∧ failLine "X" "boom"
      ∈ (collectResults
          [((⟨"b", "B", 0, 50, "ub"⟩ : Video), FetchOutcome.ret "tb" ""),
           ((⟨"x", "X", 0, 7, "ux"⟩ : Video), FetchOutcome.exc "boom")]).2 :=
  ⟨(C6_fault_isolation
      [((⟨"b", "B", 0, 50, "ub"⟩ : Video), FetchOutcome.ret "tb" ""),
       ((⟨"x", "X", 0, 7, "ux"⟩ : Video), FetchOutcome.exc "boom")]
      ⟨"b", "B", 0, 50, "ub"⟩ "tb" "" ⟨"x", "X", 0, 7, "ux"⟩ "boom").1
      (by decide) (by decide),
   (C6_fault_isolation
      [((⟨"b", "B", 0, 50, "ub"⟩ : Video), FetchOutcome.ret "tb" ""),
       ((⟨"x", "X", 0, 7, "ux"⟩ : Video), FetchOutcome.exc "boom")]
      ⟨"b", "B", 0, 50, "ub"⟩ "tb" "" ⟨"x", "X", 0, 7, "ux"⟩ "boom").2
      (by decide)⟩

/-- C7 counterexample: the cleaner's own output is not always a fixed
point: cleaning the single line with an inline-tagged WEBVTT word yields
the clean single-line text WEBVTT hello, but cleaning that output again
yields the empty string, because the output now starts with the header
marker. -/
theorem C7_counterexample :
    clean_vtt_content "<c>WEBVTT</c> hello" = "WEBVTT hello"
    ∧ clean_vtt_content (clean_vtt_content "<c>WEBVTT</c> hello")
      ≠ clean_vtt_content "<c>WEBVTT</c> hello" :=
  ⟨by decide, by decide⟩

/-- C7 amended: the cleaner is idempotent on a single-line text provided
the line is non-empty, already trimmed, not matched by any of the skip
conditions (header, metadata, comment or time-range markers), and
unaffected by tag and timestamp stripping; outputs of the cleaner can
violate these conditions, and on those the cleaner is not idempotent. -/
theorem C7_amended_idempotence (x : String) (h0 : x.data ≠ []) (h1 : '\n' ∉ x.data)
    (h2 : skipLine x.data = false) (h3 : stripTags x.data = x.data)
    (h4 : stripTs x.data = x.data) (h5 : pyStripL x.data = x.data) :
    clean_vtt_content x = x := by
  have hsplit := splitOnChar_of_not_mem '\n' x.data h1
  have hemp : x.data.isEmpty = false := by
    cases hx : x.data
    · exact absurd hx h0
    · rfl
  unfold clean_vtt_content
  rw [hsplit]
  simp only [cleanLoop, h2, h3, h4, h5, hemp, Bool.false_eq_true, if_false,
    Bool.not_false, List.contains, List.elem_nil, Bool.and_true, Bool.and_self,
    if_true]
  rfl

/-- C7 witness: the amended idempotence statement at a concrete
already-clean line. -/
theorem C7_witness : clean_vtt_content "hello world" = "hello world" :=
  C7_amended_idempotence "hello world" (by decide) (by decide) (by decide)
    (by decide) (by decide) (by decide)

/-- C8: filtering is inclusive and stably sorted: the claim's scenario
with durations 30, 300, 600 and 1200 seconds and a 900-second (15-minute)
maximum-duration threshold excludes exactly the 1200-second entry, the
ties on the sort key keeping their input order; and in general a video
whose duration equals the maximum-duration bound is kept. -/
theorem C8_filter_correctness :
    filter_videos
        [⟨"a", "A", 30, 0, "u1"⟩, ⟨"b", "B", 300, 0, "u2"⟩,
         ⟨"c", "C", 600, 0, "u3"⟩, ⟨"d", "D", 1200, 0, "u4"⟩]
        (some 15) none none "views"
      = [⟨"a", "A", 30, 0, "u1"⟩, ⟨"b", "B", 300, 0, "u2"⟩, ⟨"c", "C", 600, 0, "u3"⟩]
    ∧ ∀ (v : Video) (m : Int), 0 < m → v.duration = ((m * 60 : Int) : ℚ) →
        filter_videos [v] (some m) none none "views" = [v] := by
  constructor
  · decide
  · intro v m hm hd
    have htr : truthyInt (some m) = true := by
      simp only [truthyInt, bne_iff_ne, ne_eq]
      omega
    simp [filter_videos, htr, hd, sortDesc, insertDesc]

/-- C8 witness: a 900-second video is kept under the 15-minute
(900-second) maximum-duration threshold. -/
theorem C8_witness :
    filter_videos [⟨"e", "E", 900, 0, "ue"⟩] (some 15) none none "views"
      = [⟨"e", "E", 900, 0, "ue"⟩] :=
  (C8_filter_correctness).2 ⟨"e", "E", 900, 0, "ue"⟩ 15 (by decide) (by decide)

/-- C9: a zero threshold is falsy exactly like an absent one, so passing
0 for the maximum duration, minimum duration or minimum views filters
nothing on that dimension, identically to passing none. -/
theorem C9_zero_threshold (videos : List Video) (a b c : Option Int) (s : String) :
    filter_videos videos (some 0) b c s = filter_videos videos none b c s
    ∧ filter_videos videos a (some 0) c s = filter_videos videos a none c s
    ∧ filter_videos videos a b (some 0) s = filter_videos videos a b none s :=
  ⟨rfl, rfl, rfl⟩

/-- C10 counterexample: a catalog line for a video whose title contains a
pipe, with a numeric fragment after the pipe, is not dropped: the line
vid|Top|10|600|5 (title Top|10, duration 600, views 5) parses into a
shifted record with truncated title Top, duration 10 and views 600. -/
theorem C10_counterexample :
    get_channel_videos_parse "vid|Top|10|600|5"
      = [⟨"vid", "Top", 10, 600, "https://www.youtube.com/watch?v=vid"⟩] := by
  decide

/-- C10 amended: a title pipe shifts the duration and view-count columns,
and the record is dropped only when the shifted duration column fails
numeric parsing (as with the line vid|24|7 stream|600|5); when it parses,
a corrupted shifted record is returned instead; in all cases every
returned descriptor's title contains no pipe. -/
theorem C10_amended_parse :
    (∀ (stdout : String) (v : Video), v ∈ get_channel_videos_parse stdout →
        hasSubL [ '|' ] v.title.data = false)
    ∧ get_channel_videos_parse "vid|24|7 stream|600|5" = [] := by
  constructor
  · intro stdout v hv
    obtain ⟨l, hl, hfl⟩ := List.mem_filterMap.mp hv
    exact parseVideoLine_title _ _ hfl
  · decide

/-- C10 witness: the pipe-free-title statement at a concrete parsed
descriptor. -/
theorem C10_witness :
    hasSubL [ '|' ]
        (Video.title ⟨"vid", "Top", 10, 600, "https://www.youtube.com/watch?v=vid"⟩).data
      = false :=
  (C10_amended_parse).1 "vid|Top|10|600|5"
    ⟨"vid", "Top", 10, 600, "https://www.youtube.com/watch?v=vid"⟩ (by decide)

end YTC
